import Mathlib

/-!
Shallow embedding of `scripts/shot_data_pipeline.py` (class `NHLDataPipeline`),
the current-generation NHL ingestion pipeline, together with proofs about its
schema adapter (`extract_play_data`), its fetchers (`get_schedule`,
`get_game_data`) and its orchestrator (`collect_data`).

JSON values are modelled by the inductive `Json`; Python dictionary access is
modelled by `dictIdx` (`d[k]`, raising `KeyError`/`TypeError`) and `dictGet`
(`d.get(k, default)`, raising `AttributeError` on non-dicts).  Fallible Python
code is embedded in `Except PyErr`; the HTTP transport together with JSON
decoding is an external capability recorded in a `World` (one response per
URL), and a transport/parse failure is an `Except ReqErr` error, mirroring
`requests.exceptions.RequestException`.
-/

namespace ShotDataPipeline

/-- A JSON value as produced by `response.json()`; Python `None` is `null`. -/
inductive Json where
  | null : Json
  | bool : Bool → Json
  | num : Int → Json
  | str : String → Json
  | arr : List Json → Json
  | obj : List (String × Json) → Json

mutual

/-- Boolean equality on JSON values (structural). -/
def Json.beq : Json → Json → Bool
  | .null, .null => true
  | .bool a, .bool b => a == b
  | .num a, .num b => a == b
  | .str a, .str b => a == b
  | .arr xs, .arr ys => Json.beqArr xs ys
  | .obj xs, .obj ys => Json.beqObj xs ys
  | _, _ => false

/-- Boolean equality on JSON arrays. -/
def Json.beqArr : List Json → List Json → Bool
  | [], [] => true
  | x :: xs, y :: ys => Json.beq x y && Json.beqArr xs ys
  | _, _ => false

/-- Boolean equality on JSON object entry lists. -/
def Json.beqObj : List (String × Json) → List (String × Json) → Bool
  | [], [] => true
  | (k, v) :: xs, (l, w) :: ys => k == l && Json.beq v w && Json.beqObj xs ys
  | _, _ => false

end

theorem Json.eq_of_beq : ∀ a b : Json, Json.beq a b = true → a = b := by
  apply Json.beq.induct
    (fun a b => Json.beq a b = true → a = b)
    (fun xs ys => Json.beqObj xs ys = true → xs = ys)
    (fun xs ys => Json.beqArr xs ys = true → xs = ys)
  case case1 => intro; rfl
  case case2 => intro a b h; simp [Json.beq] at h; rw [h]
  case case3 => intro a b h; simp [Json.beq] at h; rw [h]
  case case4 => intro a b h; simp [Json.beq] at h; rw [h]
  case case5 => intro xs ys ih h; simp [Json.beq] at h; rw [ih h]
  case case6 => intro xs ys ih h; simp [Json.beq] at h; rw [ih h]
  case case7 =>
    intro t x hnull hbool hnum hstr harr hobj h
    cases t <;> cases x <;> simp [Json.beq] at h
    case null.null => exact (hnull rfl rfl).elim
    case bool.bool => exact (hbool _ _ rfl rfl).elim
    case num.num => exact (hnum _ _ rfl rfl).elim
    case str.str => exact (hstr _ _ rfl rfl).elim
    case arr.arr => exact (harr _ _ rfl rfl).elim
    case obj.obj => exact (hobj _ _ rfl rfl).elim
  case case8 => intro; rfl
  case case9 =>
    intro x xs y ys ih1 ih2 h
    simp [Json.beqArr] at h
    rw [ih1 h.1, ih2 h.2]
  case case10 =>
    intro t x hnil hcons h
    cases t <;> cases x <;> simp [Json.beqArr] at h
    case nil.nil => exact (hnil rfl rfl).elim
    case cons.cons => exact (hcons _ _ _ _ rfl rfl).elim
  case case11 => intro; rfl
  case case12 =>
    intro k v xs l w ys ih1 ih2 h
    simp [Json.beqObj] at h
    rw [h.1.1, ih1 h.1.2, ih2 h.2]
  case case13 =>
    intro t x hnil hcons h
    cases t <;> cases x <;> simp [Json.beqObj] at h
    case nil.nil => exact (hnil rfl rfl).elim
    case cons.cons a as b bs =>
      exact (hcons a.1 a.2 as b.1 b.2 bs (by rw [Prod.mk.eta]) (by rw [Prod.mk.eta])).elim

theorem Json.beq_refl : ∀ a : Json, Json.beq a a = true := by
  intro a
  have H : ∀ a b : Json, a = b → Json.beq a b = true := by
    apply Json.beq.induct
      (fun a b => a = b → Json.beq a b = true)
      (fun xs ys => xs = ys → Json.beqObj xs ys = true)
      (fun xs ys => xs = ys → Json.beqArr xs ys = true)
    case case1 => intro; rfl
    case case2 => intro a b h; cases h; simp [Json.beq]
    case case3 => intro a b h; cases h; simp [Json.beq]
    case case4 => intro a b h; cases h; simp [Json.beq]
    case case5 => intro xs ys ih h; cases h; simp [Json.beq]; exact ih rfl
    case case6 => intro xs ys ih h; cases h; simp [Json.beq]; exact ih rfl
    case case7 =>
      intro t x hnull hbool hnum hstr harr hobj h
      cases h
      cases t
      case null => exact (hnull rfl rfl).elim
      case bool => exact (hbool _ _ rfl rfl).elim
      case num => exact (hnum _ _ rfl rfl).elim
      case str => exact (hstr _ _ rfl rfl).elim
      case arr => exact (harr _ _ rfl rfl).elim
      case obj => exact (hobj _ _ rfl rfl).elim
    case case8 => intro; rfl
    case case9 =>
      intro x xs y ys ih1 ih2 h
      cases h
      simp [Json.beqArr]
      exact ⟨ih1 rfl, ih2 rfl⟩
    case case10 =>
      intro t x hnil hcons h
      cases h
      cases t
      case nil => exact (hnil rfl rfl).elim
      case cons => exact (hcons _ _ _ _ rfl rfl).elim
    case case11 => intro; rfl
    case case12 =>
      intro k v xs l w ys ih1 ih2 h
      cases h
      simp [Json.beqObj]
      exact ⟨ih1 rfl, ih2 rfl⟩
    case case13 =>
      intro t x hnil hcons h
      cases h
      cases t
      case nil => exact (hnil rfl rfl).elim
      case cons a as => exact (hcons a.1 a.2 as a.1 a.2 as (by rw [Prod.mk.eta]) (by rw [Prod.mk.eta])).elim
  exact H a a rfl

instance : DecidableEq Json := fun a b =>
  decidable_of_iff (Json.beq a b = true)
    ⟨Json.eq_of_beq a b, fun h => h ▸ Json.beq_refl a⟩

/-- A Python exception that the pipeline code can raise and that is *not*
a `requests.exceptions.RequestException` (hence never caught by the
`try/except` blocks in the fetchers). -/
inductive PyErr where
  | keyError : String → PyErr
  | attributeError : PyErr
  | typeError : PyErr
deriving DecidableEq

/-- A `requests.exceptions.RequestException`: transport failure, non-success
status (`raise_for_status`) or JSON decoding failure. -/
inductive ReqErr where
  | mk : String → ReqErr
deriving DecidableEq

/-- Python `d[k]`: `KeyError` when the key is absent, `TypeError` when the
receiver is not a dict.  A key bound to JSON `null` yields `null`. -/
def dictIdx (v : Json) (k : String) : Except PyErr Json :=
  match v with
  | .obj kvs =>
    match kvs.lookup k with
    | some x => .ok x
    | none => .error (.keyError k)
  | _ => .error .typeError

/-- Python `d.get(k, default)`: the bound value when the key is present,
`default` otherwise; `AttributeError` when the receiver is not a dict. -/
def dictGet (v : Json) (k : String) (default : Json) : Except PyErr Json :=
  match v with
  | .obj kvs => .ok ((kvs.lookup k).getD default)
  | _ => .error .attributeError

/-- Python `d.get(k)` (default `None`). -/
def dictGetN (v : Json) (k : String) : Except PyErr Json :=
  dictGet v k Json.null

/-- Python `for x in v`: lists yield elements, dicts yield keys, strings yield
characters; other values raise `TypeError`. -/
def pyIter : Json → Except PyErr (List Json)
  | .arr xs => .ok xs
  | .obj kvs => .ok (kvs.map fun kv => Json.str kv.1)
  | .str s => .ok (s.data.map fun c => Json.str (String.mk [c]))
  | _ => .error .typeError

/-- Python `len(v)`: defined on lists, dicts and strings, `TypeError` elsewhere. -/
def pyLen : Json → Except PyErr Nat
  | .arr xs => .ok xs.length
  | .obj kvs => .ok kvs.length
  | .str s => .ok s.length
  | _ => .error .typeError

/-- A canonical row: the Python dict built by `extract_play_data`, as an
insertion-ordered association list (all keys written by the code are distinct,
and `dict.update` appends fresh keys in order). -/
abbrev Row : Type := List (String × Json)

/-- The shot-family event-type codes of line 83:
`['shot-on-goal', 'goal', 'missed-shot', 'blocked-shot']`. -/
def shotFamily : List Json :=
  [Json.str "shot-on-goal", Json.str "goal", Json.str "missed-shot",
   Json.str "blocked-shot"]

/-- Embedding of `NHLDataPipeline.extract_play_data(play_data, game_data)` (lines 51-102).
Every lookup follows the source order of evaluation of the `play_info` dict
literal and the two conditional `update` calls; repeated source lookups of the
same pure expression (`play_data.get('details', {})`,
`play_data.get('typeDescKey')`, `play_data.get('periodDescriptor', {})`) are
evaluated once, which is observationally equal because the earlier occurrence
already forced any error. -/
def extract_play_data (play_data game_data : Json) : Except PyErr Row := do
  let game_id ← dictIdx game_data "id"
  let event_id ← dictGetN play_data "eventId"
  let event_type ← dictGetN play_data "typeDescKey"
  let periodDescriptor ← dictGet play_data "periodDescriptor" (Json.obj [])
  let period ← dictGetN periodDescriptor "number"
  let period_type ← dictGetN periodDescriptor "periodType"
  let time_in_period ← dictGetN play_data "timeInPeriod"
  let time_remaining ← dictGetN play_data "timeRemaining"
  let details ← dictGet play_data "details" (Json.obj [])
  let coordinates_x ← dictGetN details "xCoord"
  let coordinates_y ← dictGetN details "yCoord"
  let zone_code ← dictGetN details "zoneCode"
  let event_owner_team_id ← dictGetN details "eventOwnerTeamId"
  let awayTeam ← dictIdx game_data "awayTeam"
  let away_team_id ← dictIdx awayTeam "id"
  let homeTeam ← dictIdx game_data "homeTeam"
  let home_team_id ← dictIdx homeTeam "id"
  let situation_code ← dictGetN play_data "situationCode"
  let home_team_defending_side ← dictGetN play_data "homeTeamDefendingSide"
  let play_info : Row :=
    [("game_id", game_id),
     ("event_id", event_id),
     ("event_type", event_type),
     ("period", period),
     ("period_type", period_type),
     ("time_in_period", time_in_period),
     ("time_remaining", time_remaining),
     ("coordinates_x", coordinates_x),
     ("coordinates_y", coordinates_y),
     ("zone_code", zone_code),
     ("event_owner_team_id", event_owner_team_id),
     ("away_team_id", away_team_id),
     ("home_team_id", home_team_id),
     ("situation_code", situation_code),
     ("home_team_defending_side", home_team_defending_side)]
  if event_type ∈ shotFamily then do
    let shot_type ← dictGetN details "shotType"
    let shooter_id ← dictGetN details "shootingPlayerId"
    let goalie_id ← dictGetN details "goalieInNetId"
    let away_sog ← dictGetN details "awaySOG"
    let home_sog ← dictGetN details "homeSOG"
    let play_info : Row := play_info ++
      [("shot_type", shot_type),
       ("shooter_id", shooter_id),
       ("goalie_id", goalie_id),
       ("away_sog", away_sog),
       ("home_sog", home_sog)]
    if event_type = Json.str "goal" then do
      let scoring_player_id ← dictGetN details "scoringPlayerId"
      let assist1_player_id ← dictGetN details "assist1PlayerId"
      let assist2_player_id ← dictGetN details "assist2PlayerId"
      let away_score ← dictGetN details "awayScore"
      let home_score ← dictGetN details "homeScore"
      return play_info ++
        [("scoring_player_id", scoring_player_id),
         ("assist1_player_id", assist1_player_id),
         ("assist2_player_id", assist2_player_id),
         ("away_score", away_score),
         ("home_score", home_score)]
    else
      return play_info
  else
    return play_info

/-- The upstream HTTP world: one (transport + JSON decoding) outcome for the
schedule URL of the requested date and one per game URL.  An `Except.error` is
a raised `requests.exceptions.RequestException`. -/
structure World where
  scheduleResp : Except ReqErr Json
  gameResp : Json → Except ReqErr Json

/-- An externally visible action of one orchestrator run: the outbound
schedule request, an outbound game request (line 42, keyed by the game id
interpolated into the URL), or one `time.sleep(1)` call (line 136). -/
inductive Action where
  | fetchSchedule : Action
  | fetchGame : Json → Action
  | sleep : Action
deriving DecidableEq

/-- The lookups forced by printing one scheduled game:
`game['id']`, `game['awayTeam']['placeName']['default']`,
`game['homeTeam']['placeName']['default']`.  These exact accesses occur both
in the schedule print loop (line 27) and in `collect_data` (lines 125-127);
the result is `game['id']`. -/
def gameHeader (game : Json) : Except PyErr Json := do
  let game_id ← dictIdx game "id"
  let awayTeam ← dictIdx game "awayTeam"
  let awayPlace ← dictIdx awayTeam "placeName"
  let _ ← dictIdx awayPlace "default"
  let homeTeam ← dictIdx game "homeTeam"
  let homePlace ← dictIdx homeTeam "placeName"
  let _ ← dictIdx homePlace "default"
  return game_id

/-- The game print loop of lines 26-27: each game of the matched week is
printed in order, forcing the `gameHeader` lookups. -/
def printGames : List Json → Except PyErr Unit
  | [] => .ok ()
  | game :: rest => do
    let _ ← gameHeader game
    printGames rest

/-- The `for week in schedule_data.get('gameWeek', [])` loop of lines 22-29:
the first week whose `date` equals `start_date` has its games printed
(forcing `gameHeader` on each) and extended into `all_games`, then the loop
breaks; weeks are scanned in order. -/
def scheduleWeeks (weeks : List Json) (start_date : String) :
    Except PyErr (List Json) :=
  match weeks with
  | [] => .ok []
  | week :: rest => do
    let date ← dictGetN week "date"
    if date = Json.str start_date then do
      let games ← dictGet week "games" (Json.arr [])
      let gameList ← pyIter games
      let _ ← printGames gameList
      return gameList
    else
      scheduleWeeks rest start_date

/-- Embedding of `NHLDataPipeline.get_schedule(start_date, end_date)` (lines 12-35).
A `RequestException` (transport, status or JSON decoding) is caught and
yields `{'games': []}`; any other exception raised while walking the decoded
body propagates (the `except` clause only catches `RequestException`).
`end_date` is never read. -/
def get_schedule (w : World) (start_date end_date : String) :
    Except PyErr Json :=
  match w.scheduleResp with
  | .error _ => .ok (Json.obj [("games", Json.arr [])])
  | .ok schedule_data => do
    let weeks ← dictGet schedule_data "gameWeek" (Json.arr [])
    let weekList ← pyIter weeks
    let all_games ← scheduleWeeks weekList start_date
    return Json.obj [("games", Json.arr all_games)]

/-- Embedding of `NHLDataPipeline.get_game_data(game_id)` (lines 37-49).  A
`RequestException` is caught and yields `{'plays': []}`; the success path
forces `len(game_data.get('plays', []))` for the print on line 45. -/
def get_game_data (w : World) (game_id : Json) : Except PyErr Json :=
  match w.gameResp game_id with
  | .error _ => .ok (Json.obj [("plays", Json.arr [])])
  | .ok game_data => do
    let plays ← dictGet game_data "plays" (Json.arr [])
    let _ ← pyLen plays
    return game_data

/-- The debug print of lines 109-112: when `debug` is set and `plays` is
truthy, `json.dumps(plays[0], indent=2)` subscripts `plays` at 0, which
raises for truthy non-sequences (JSON object keys are strings, so a decoded
dict never has the integer key 0). -/
def debugPeek (debug : Bool) (plays : Json) : Except PyErr Unit :=
  if debug then
    match plays with
    | .arr _ => .ok ()
    | .obj [] => .ok ()
    | .obj (_ :: _) => .error (.keyError "0")
    | .str _ => .ok ()
    | .num n => if n = 0 then .ok () else .error .typeError
    | .bool b => if b then .error .typeError else .ok ()
    | .null => .ok ()
  else .ok ()

/-- Embedding of `NHLDataPipeline.process_game(game_id, debug)` (lines 104-118): fetch the
game, then adapt every play via `extract_play_data`, accumulating in order. -/
def process_game (w : World) (game_id : Json) (debug : Bool) :
    Except PyErr (List Row) := do
  let game_data ← get_game_data w game_id
  let plays ← dictGet game_data "plays" (Json.arr [])
  let _ ← debugPeek debug plays
  let playList ← pyIter plays
  playList.foldlM (fun play_events play => do
    let r ← extract_play_data play game_data
    pure (play_events ++ [r])) ([] : List Row)

/-- The `for game in schedule.get('games', [])` loop of `collect_data`
(lines 124-138), returning the accumulated `plays_data` rows, the trace of
outbound requests and sleeps, and the loop outcome.  Per game: the
`gameHeader` lookups of lines 125-127 run outside the `try` (an error there
aborts the run); inside the `try`, `process_game` starts with the game fetch,
a success extends the accumulator and is followed by `break` in debug mode or
`time.sleep(1)` otherwise, and an exception is caught and only printed. -/
def collect_loop (w : World) (debug : Bool) :
    List Json → List Row × List Action × Except PyErr Unit
  | [] => ([], [], .ok ())
  | game :: rest =>
    match gameHeader game with
    | .error e => ([], [], .error e)
    | .ok game_id =>
      match process_game w game_id debug with
      | .ok play_events =>
        if debug then
          (play_events, [Action.fetchGame game_id], .ok ())
        else
          let r := collect_loop w debug rest
          (play_events ++ r.1,
           Action.fetchGame game_id :: Action.sleep :: r.2.1, r.2.2)
      | .error _ =>
        let r := collect_loop w debug rest
        (r.1, Action.fetchGame game_id :: r.2.1, r.2.2)

/-- Embedding of `NHLDataPipeline.collect_data(start_date, end_date, debug)`
(lines 120-143) on a fresh pipeline object (`plays_data = []`): fetch the
schedule, then run the per-game loop.  An exception escaping `get_schedule`
or the loop propagates (only per-game `process_game` errors are caught). -/
def collect_data (w : World) (start_date end_date : String) (debug : Bool) :
    List Row × List Action × Except PyErr Unit :=
  match get_schedule w start_date end_date with
  | .error e => ([], [Action.fetchSchedule], .error e)
  | .ok schedule =>
    match dictGet schedule "games" (Json.arr []) with
    | .error e => ([], [Action.fetchSchedule], .error e)
    | .ok games =>
      match pyIter games with
      | .error e => ([], [Action.fetchSchedule], .error e)
      | .ok gameList =>
        let r := collect_loop w debug gameList
        (r.1, Action.fetchSchedule :: r.2.1, r.2.2)

/-! ### Helper lemmas about the embedding -/

instance {ε α : Type} [DecidableEq ε] [DecidableEq α] :
    DecidableEq (Except ε α) := fun a b =>
  match a, b with
  | .ok x, .ok y =>
    if h : x = y then isTrue (by rw [h]) else isFalse (fun hc => h (Except.ok.inj hc))
  | .error e, .error f =>
    if h : e = f then isTrue (by rw [h]) else isFalse (fun hc => h (Except.error.inj hc))
  | .ok _, .error _ => isFalse (fun hc => Except.noConfusion hc)
  | .error _, .ok _ => isFalse (fun hc => Except.noConfusion hc)

theorem except_bind_ok {α β : Type} {e : Except PyErr α}
    {f : α → Except PyErr β} {b : β} :
    e >>= f = .ok b ↔ ∃ a, e = .ok a ∧ f a = .ok b := by
  cases e <;> simp [Bind.bind, Except.bind]

theorem except_pure_ok {α : Type} {a b : α} :
    (pure a : Except PyErr α) = .ok b ↔ a = b := by
  constructor
  · intro h; exact Except.ok.inj h
  · intro h; rw [h]; rfl

theorem lookup_eq_none_iff {l : List (String × Json)} {k : String} :
    l.lookup k = none ↔ k ∉ l.map Prod.fst := by
  induction l with
  | nil => simp
  | cons x xs ih =>
    obtain ⟨a, b⟩ := x
    by_cases hk : k = a
    · subst hk; simp [List.lookup]
    · have hba : (k == a) = false := beq_false_of_ne hk
      simp only [List.lookup, hba, List.map_cons, List.mem_cons, ih]
      constructor
      · intro hnm hor; exact hor.elim (fun he => hk he) hnm
      · intro hall hm; exact hall (Or.inr hm)

/-- The keys written unconditionally by the `play_info` dict literal of
lines 53-79, in insertion order. -/
def baseKeys : List String :=
  ["game_id", "event_id", "event_type", "period", "period_type",
   "time_in_period", "time_remaining", "coordinates_x", "coordinates_y",
   "zone_code", "event_owner_team_id", "away_team_id", "home_team_id",
   "situation_code", "home_team_defending_side"]

/-- The keys of the shot-family `update` of lines 84-90. -/
def shotKeys : List String :=
  ["shot_type", "shooter_id", "goalie_id", "away_sog", "home_sog"]

/-- The keys of the goal `update` of lines 94-100. -/
def goalKeys : List String :=
  ["scoring_player_id", "assist1_player_id", "assist2_player_id",
   "away_score", "home_score"]

/-- Shape of every row produced by `extract_play_data`: the key set is the
base tier, extended by the shot tier exactly when the event type belongs to
the shot family and by the goal tier exactly when it is `"goal"`; `game_id`
holds the game record's `id` and `event_type` holds the event's
`typeDescKey`. -/
theorem extract_play_data_shape (p g : Json) (r : Row)
    (h : extract_play_data p g = .ok r) :
    ∃ et gid, dictGetN p "typeDescKey" = .ok et ∧ dictIdx g "id" = .ok gid ∧
      r.map Prod.fst = baseKeys ++
        (if et ∈ shotFamily then shotKeys else []) ++
        (if et = Json.str "goal" then goalKeys else []) ∧
      r.lookup "game_id" = some gid ∧
      r.lookup "event_type" = some et := by
  unfold extract_play_data at h
  simp only [except_bind_ok, except_pure_ok, ite_eq_iff] at h
  obtain ⟨gid, hgid, eid, heid, et, het, pd, hpd, per, hper, pt, hpt, tip, htip,
    trm, htrm, det, hdet, cx, hcx, cy, hcy, zc, hzc, eot, heot, awt, hawt,
    aid, haid, hmt, hhmt, hid, hhid, sc, hsc, hs, hhs, h⟩ := h
  refine ⟨et, gid, het, hgid, ?_⟩
  rcases h with ⟨hshot, h⟩ | ⟨hshot, h⟩
  · obtain ⟨st, hst, sh, hsh, go, hgo, asog, hasog, hsog, hhsog, h⟩ := h
    rcases h with ⟨hgoal, h⟩ | ⟨hgoal, h⟩
    · obtain ⟨sp, hsp, a1, ha1, a2, ha2, asc, hasc, hsc2, hhsc2, hr⟩ := h
      subst hr
      simp [baseKeys, shotKeys, goalKeys, hshot, hgoal, List.lookup, shotFamily]
    · subst h
      simp [baseKeys, shotKeys, goalKeys, hshot, hgoal, List.lookup]
  · have hng : ¬et = Json.str "goal" := by
      intro he; exact hshot (by rw [he]; simp [shotFamily])
    subst h
    simp [baseKeys, shotKeys, goalKeys, hshot, hng, List.lookup]

/-! ### Concrete fixtures -/

/-- A well-formed parent game record: `id` 2024020001, away team 10
("Toronto"), home team 12 ("Boston"). -/
def sampleGame : Json := Json.obj
  [("id", Json.num 2024020001),
   ("awayTeam", Json.obj [("id", Json.num 10),
      ("placeName", Json.obj [("default", Json.str "Toronto")])]),
   ("homeTeam", Json.obj [("id", Json.num 12),
      ("placeName", Json.obj [("default", Json.str "Boston")])])]

/-- The row `extract_play_data` yields for a goal event carrying nothing but
its `typeDescKey`, inside `sampleGame`. -/
def sampleGoalRow : Row :=
  [("game_id", Json.num 2024020001), ("event_id", Json.null),
   ("event_type", Json.str "goal"), ("period", Json.null),
   ("period_type", Json.null), ("time_in_period", Json.null),
   ("time_remaining", Json.null), ("coordinates_x", Json.null),
   ("coordinates_y", Json.null), ("zone_code", Json.null),
   ("event_owner_team_id", Json.null), ("away_team_id", Json.num 10),
   ("home_team_id", Json.num 12), ("situation_code", Json.null),
   ("home_team_defending_side", Json.null), ("shot_type", Json.null),
   ("shooter_id", Json.null), ("goalie_id", Json.null),
   ("away_sog", Json.null), ("home_sog", Json.null),
   ("scoring_player_id", Json.null), ("assist1_player_id", Json.null),
   ("assist2_player_id", Json.null), ("away_score", Json.null),
   ("home_score", Json.null)]

/-! ### C1 -/

/-- C1, counterexample.  Adapting the event `{}` (missing every optional
nested field) inside a well-formed game record yields a row whose
`away_team_id` is 10 and `home_team_id` is 12 — both taken from the parent
game record and not null — so the claim that every field other than
`game_id` is null is false. -/
theorem C1_counterexample :
    extract_play_data (Json.obj []) sampleGame = .ok
      [("game_id", Json.num 2024020001), ("event_id", Json.null),
       ("event_type", Json.null), ("period", Json.null),
       ("period_type", Json.null), ("time_in_period", Json.null),
       ("time_remaining", Json.null), ("coordinates_x", Json.null),
       ("coordinates_y", Json.null), ("zone_code", Json.null),
       ("event_owner_team_id", Json.null), ("away_team_id", Json.num 10),
       ("home_team_id", Json.num 12), ("situation_code", Json.null),
       ("home_team_defending_side", Json.null)] ∧
    Json.num 10 ≠ Json.null ∧ Json.num 12 ≠ Json.null := by
  refine ⟨by rfl, by decide, by decide⟩

/-- C1, amended.  Calling `extract_play_data` on an event record missing
every optional nested field (`details`, `periodDescriptor`, `eventId`,
`typeDescKey`, the timing fields and the situation fields) yields a
CanonicalRow whose `game_id`, `away_team_id` and `home_team_id` are populated
from the parent game record and whose every other field is null, and the call
never raises (it returns `.ok`). -/
theorem C1_missing_fields (pkvs gkvs akvs hkvs : List (String × Json))
    (gid aid hid : Json)
    (hp1 : pkvs.lookup "eventId" = none)
    (hp2 : pkvs.lookup "typeDescKey" = none)
    (hp3 : pkvs.lookup "periodDescriptor" = none)
    (hp4 : pkvs.lookup "timeInPeriod" = none)
    (hp5 : pkvs.lookup "timeRemaining" = none)
    (hp6 : pkvs.lookup "details" = none)
    (hp7 : pkvs.lookup "situationCode" = none)
    (hp8 : pkvs.lookup "homeTeamDefendingSide" = none)
    (hg1 : gkvs.lookup "id" = some gid)
    (hg2 : gkvs.lookup "awayTeam" = some (Json.obj akvs))
    (hg3 : akvs.lookup "id" = some aid)
    (hg4 : gkvs.lookup "homeTeam" = some (Json.obj hkvs))
    (hg5 : hkvs.lookup "id" = some hid) :
    extract_play_data (Json.obj pkvs) (Json.obj gkvs) = .ok
      [("game_id", gid), ("event_id", Json.null), ("event_type", Json.null),
       ("period", Json.null), ("period_type", Json.null),
       ("time_in_period", Json.null), ("time_remaining", Json.null),
       ("coordinates_x", Json.null), ("coordinates_y", Json.null),
       ("zone_code", Json.null), ("event_owner_team_id", Json.null),
       ("away_team_id", aid), ("home_team_id", hid),
       ("situation_code", Json.null), ("home_team_defending_side", Json.null)] := by
  simp [extract_play_data, dictIdx, dictGet, dictGetN, hp1, hp2, hp3, hp4,
    hp5, hp6, hp7, hp8, hg1, hg2, hg3, hg4, hg5, shotFamily,
    Bind.bind, Except.bind, pure, Except.pure]

/-- C1, witness: the amended theorem applied at the event `{}` and the game
record `sampleGame`. -/
theorem C1_witness :
    extract_play_data (Json.obj [])
      (Json.obj
        [("id", Json.num 2024020001),
         ("awayTeam", Json.obj [("id", Json.num 10),
            ("placeName", Json.obj [("default", Json.str "Toronto")])]),
         ("homeTeam", Json.obj [("id", Json.num 12),
            ("placeName", Json.obj [("default", Json.str "Boston")])])]) = .ok
      [("game_id", Json.num 2024020001), ("event_id", Json.null),
       ("event_type", Json.null), ("period", Json.null),
       ("period_type", Json.null), ("time_in_period", Json.null),
       ("time_remaining", Json.null), ("coordinates_x", Json.null),
       ("coordinates_y", Json.null), ("zone_code", Json.null),
       ("event_owner_team_id", Json.null), ("away_team_id", Json.num 10),
       ("home_team_id", Json.num 12), ("situation_code", Json.null),
       ("home_team_defending_side", Json.null)] :=
  C1_missing_fields []
    [("id", Json.num 2024020001),
     ("awayTeam", Json.obj [("id", Json.num 10),
        ("placeName", Json.obj [("default", Json.str "Toronto")])]),
     ("homeTeam", Json.obj [("id", Json.num 12),
        ("placeName", Json.obj [("default", Json.str "Boston")])])]
    [("id", Json.num 10), ("placeName", Json.obj [("default", Json.str "Toronto")])]
    [("id", Json.num 12), ("placeName", Json.obj [("default", Json.str "Boston")])]
    (Json.num 2024020001) (Json.num 10) (Json.num 12)
    (by decide) (by decide) (by decide) (by decide) (by decide) (by decide)
    (by decide) (by decide) (by decide) (by decide) (by decide) (by decide)
    (by decide)

/-! ### C2 -/

/-- C2, counterexample.  Adapting a goal event (its `typeDescKey` is
`"goal"`) succeeds, and the resulting row has no `is_goal` field at all: the
lookup of `"is_goal"` in the produced row is `none`.  The claim that every
adapted row contains an `is_goal` field is therefore false. -/
theorem C2_counterexample :
    ((extract_play_data (Json.obj [("typeDescKey", Json.str "goal")])
        sampleGame).toOption.map (fun r => r.lookup "is_goal")) =
      some none := by
  decide

/-- C2, amended.  `extract_play_data` never writes an `is_goal` field: every
row it produces has `lookup "is_goal" = none`.  The goal status is carried
instead by the `event_type` field, which equals `"goal"` exactly when the
goal overlay (witnessed by the `scoring_player_id` key) is present. -/
theorem C2_no_is_goal_field (p g : Json) (r : Row)
    (h : extract_play_data p g = .ok r) :
    r.lookup "is_goal" = none ∧
    (r.lookup "event_type" = some (Json.str "goal") ↔
      "scoring_player_id" ∈ r.map Prod.fst) := by
  obtain ⟨et, gid, het, hgid, hkeys, hgidlk, hetlk⟩ :=
    extract_play_data_shape p g r h
  constructor
  · rw [lookup_eq_none_iff, hkeys]
    by_cases h1 : et ∈ shotFamily <;> by_cases h2 : et = Json.str "goal" <;>
      simp [h1, h2, baseKeys, shotKeys, goalKeys]
  · rw [hetlk, hkeys]
    by_cases h2 : et = Json.str "goal"
    · have h1 : et ∈ shotFamily := by rw [h2]; simp [shotFamily]
      simp [h1, h2, baseKeys, shotKeys, goalKeys]
    · by_cases h1 : et ∈ shotFamily <;>
        simp [h1, h2, baseKeys, shotKeys, goalKeys]

/-- C2, witness: the amended theorem applied at a goal event inside
`sampleGame`, whose row is `sampleGoalRow`. -/
theorem C2_witness :
    sampleGoalRow.lookup "is_goal" = none ∧
    (sampleGoalRow.lookup "event_type" = some (Json.str "goal") ↔
      "scoring_player_id" ∈ sampleGoalRow.map Prod.fst) :=
  C2_no_is_goal_field (Json.obj [("typeDescKey", Json.str "goal")])
    sampleGame sampleGoalRow (by rfl)

/-! ### C4 -/

/-- C4.  The adapter composes fields in tiers: every produced row contains
all base keys; each shot-overlay key (`shot_type`, `shooter_id`, `goalie_id`,
`away_sog`, `home_sog`) is present iff the event's `typeDescKey` is one of
the four shot-family codes; each goal-overlay key (`scoring_player_id`,
`assist1_player_id`, `assist2_player_id`, `away_score`, `home_score`) is
present iff the `typeDescKey` equals `"goal"`. -/
theorem C4_tiered_overlays (p g : Json) (r : Row)
    (h : extract_play_data p g = .ok r) :
    ∃ et, dictGetN p "typeDescKey" = .ok et ∧
      (∀ k ∈ baseKeys, k ∈ r.map Prod.fst) ∧
      (∀ k ∈ shotKeys, (k ∈ r.map Prod.fst ↔ et ∈ shotFamily)) ∧
      (∀ k ∈ goalKeys, (k ∈ r.map Prod.fst ↔ et = Json.str "goal")) := by
  obtain ⟨et, gid, het, hgid, hkeys, h4, h5⟩ := extract_play_data_shape p g r h
  refine ⟨et, het, ?_, ?_, ?_⟩
  · intro k hk
    rw [hkeys]
    exact List.mem_append_left _ (List.mem_append_left _ hk)
  · intro k hk
    rw [hkeys]
    by_cases h1 : et ∈ shotFamily
    · simp only [h1, if_true, iff_true]
      exact List.mem_append_left _ (List.mem_append_right _ hk)
    · have h2 : ¬et = Json.str "goal" := fun he => h1 (by rw [he]; simp [shotFamily])
      simp only [h1, h2, if_false, iff_false, List.append_nil]
      simp only [shotKeys, List.mem_cons, List.not_mem_nil, or_false] at hk
      rcases hk with rfl | rfl | rfl | rfl | rfl <;> decide
  · intro k hk
    rw [hkeys]
    by_cases h2 : et = Json.str "goal"
    · have h1 : et ∈ shotFamily := by rw [h2]; simp [shotFamily]
      simp only [h1, h2, if_true, iff_true]
      exact List.mem_append_right _ hk
    · simp only [h2, if_false, iff_false, List.append_nil]
      simp only [goalKeys, List.mem_cons, List.not_mem_nil, or_false] at hk
      by_cases h1 : et ∈ shotFamily <;>
        simp only [h1, if_true, if_false, List.append_nil] <;>
        rcases hk with rfl | rfl | rfl | rfl | rfl <;> decide

/-- C4, witness: the tier theorem applied at a bare goal event inside
`sampleGame`, whose row is `sampleGoalRow` (all 25 keys present). -/
theorem C4_witness :
    ∃ et, dictGetN (Json.obj [("typeDescKey", Json.str "goal")])
        "typeDescKey" = .ok et ∧
      (∀ k ∈ baseKeys, k ∈ sampleGoalRow.map Prod.fst) ∧
      (∀ k ∈ shotKeys, (k ∈ sampleGoalRow.map Prod.fst ↔ et ∈ shotFamily)) ∧
      (∀ k ∈ goalKeys, (k ∈ sampleGoalRow.map Prod.fst ↔ et = Json.str "goal")) :=
  C4_tiered_overlays (Json.obj [("typeDescKey", Json.str "goal")])
    sampleGame sampleGoalRow (by rfl)

/-! ### C5 -/

/-- C5.  On a transport or parse failure (a raised
`requests.exceptions.RequestException`, covering connection errors,
`raise_for_status` and JSON decoding), `get_schedule` returns `{'games': []}`
and `get_game_data` returns `{'plays': []}`; both return normally (`.ok`),
reporting the failure via logging only — nothing is raised past the
orchestrator boundary. -/
theorem C5_failure_defaults (w : World) (sd ed : String) (gid : Json)
    (e1 e2 : ReqErr)
    (h1 : w.scheduleResp = .error e1) (h2 : w.gameResp gid = .error e2) :
    get_schedule w sd ed = .ok (Json.obj [("games", Json.arr [])]) ∧
    get_game_data w gid = .ok (Json.obj [("plays", Json.arr [])]) := by
  constructor
  · simp [get_schedule, h1]
  · simp [get_game_data, h2]

/-- A world in which every request fails. -/
def failWorld : World where
  scheduleResp := .error (ReqErr.mk "503")
  gameResp := fun _ => .error (ReqErr.mk "503")

/-- C5, witness: the failure theorem applied to a world whose every request
fails with a 503. -/
theorem C5_witness :
    get_schedule failWorld "2024-01-01" "2024-01-31" =
      .ok (Json.obj [("games", Json.arr [])]) ∧
    get_game_data failWorld (Json.num 2024020001) =
      .ok (Json.obj [("plays", Json.arr [])]) :=
  C5_failure_defaults failWorld "2024-01-01" "2024-01-31"
    (Json.num 2024020001) (ReqErr.mk "503") (ReqErr.mk "503") rfl rfl

/-! ### C10 -/

/-- C10.  The output of `collect_data` (rows, request/sleep trace and
outcome) is independent of the `end_date` argument: with the upstream
responses fixed, two runs differing only in `end_date` coincide, because
`end_date` is threaded into `get_schedule` and never read. -/
theorem C10_end_date_unused (w : World) (sd ed1 ed2 : String) (debug : Bool) :
    collect_data w sd ed1 debug = collect_data w sd ed2 debug := rfl

/-! ### Orchestrator characterization (non-debug runs) -/

/-- The rows one scheduled game contributes to a non-debug run: the
`process_game` result when both the header lookups and the processing
succeed, nothing otherwise. -/
def gameRows (w : World) (g : Json) : List Row :=
  match gameHeader g with
  | .ok gid =>
    match process_game w gid false with
    | .ok rs => rs
    | .error _ => []
  | .error _ => []

/-- The trace one scheduled game contributes to a non-debug run: its fetch,
followed by one sleep exactly when its processing succeeded. -/
def gameTrace (w : World) (g : Json) : List Action :=
  match gameHeader g with
  | .ok gid =>
    Action.fetchGame gid ::
      (match process_game w gid false with
       | .ok _ => [Action.sleep]
       | .error _ => [])
  | .error _ => []

theorem collect_loop_char (w : World) (gs : List Json)
    (h : ∀ g ∈ gs, ∃ gid, gameHeader g = .ok gid) :
    collect_loop w false gs =
      ((gs.map (gameRows w)).flatten, (gs.map (gameTrace w)).flatten,
       Except.ok ()) := by
  induction gs with
  | nil => rfl
  | cons g rest ih =>
    obtain ⟨gid, hgid⟩ := h g (List.mem_cons_self g rest)
    have hrest := ih (fun x hx => h x (List.mem_cons_of_mem g hx))
    cases hp : process_game w gid false with
    | ok rs => simp [collect_loop, hgid, hp, gameRows, gameTrace, hrest]
    | error e => simp [collect_loop, hgid, hp, gameRows, gameTrace, hrest]

theorem collect_data_char (w : World) (sd ed : String) (games : List Json)
    (hsched : get_schedule w sd ed =
      .ok (Json.obj [("games", Json.arr games)]))
    (hhead : ∀ g ∈ games, ∃ gid, gameHeader g = .ok gid) :
    collect_data w sd ed false =
      ((games.map (gameRows w)).flatten,
       Action.fetchSchedule :: (games.map (gameTrace w)).flatten,
       Except.ok ()) := by
  have h1 : collect_data w sd ed false =
      ((collect_loop w false games).1,
       Action.fetchSchedule :: (collect_loop w false games).2.1,
       (collect_loop w false games).2.2) := by
    unfold collect_data
    rw [hsched]
    rfl
  rw [h1, collect_loop_char w games hhead]

/-! ### Concrete worlds for the orchestrator claims -/

/-- A schedule entry for game `n`, well-formed for the progress prints. -/
def gameEntry (n : Int) : Json := Json.obj
  [("id", Json.num n),
   ("awayTeam", Json.obj [("placeName", Json.obj [("default", Json.str "Away")])]),
   ("homeTeam", Json.obj [("placeName", Json.obj [("default", Json.str "Home")])])]

/-- A well-formed play-by-play response for game `n` with one play. -/
def goodResp (n : Int) : Json := Json.obj
  [("id", Json.num n),
   ("plays", Json.arr [Json.obj [("eventId", Json.num (100 + n))]]),
   ("awayTeam", Json.obj [("id", Json.num 10)]),
   ("homeTeam", Json.obj [("id", Json.num 12)])]

/-- A malformed play-by-play response: one play but no `id` key, so
`extract_play_data` raises `KeyError('id')` and the game is skipped. -/
def badResp : Json := Json.obj [("plays", Json.arr [Json.obj []])]

/-- A week-granular schedule response for 2024-01-01 listing `games`. -/
def schedOf (games : List Json) : Json := Json.obj
  [("gameWeek", Json.arr
    [Json.obj [("date", Json.str "2024-01-01"), ("games", Json.arr games)]])]

/-- Three scheduled games; game 2's payload is malformed, games 1 and 3 are
fine. -/
def w3 : World where
  scheduleResp := .ok (schedOf [gameEntry 1, gameEntry 2, gameEntry 3])
  gameResp := fun gid =>
    if gid = Json.num 2 then .ok badResp
    else if gid = Json.num 1 then .ok (goodResp 1)
    else if gid = Json.num 3 then .ok (goodResp 3)
    else .error (.mk "404")

/-- Two scheduled games; game 1's payload is malformed, game 2 is fine. -/
def w82 : World where
  scheduleResp := .ok (schedOf [gameEntry 1, gameEntry 2])
  gameResp := fun gid =>
    if gid = Json.num 1 then .ok badResp
    else if gid = Json.num 2 then .ok (goodResp 2)
    else .error (.mk "404")

/-! ### C3 -/

/-- C3.  If processing one scheduled game `gbad` raises while every other
game processes normally (hypotheses name only the failing game; the others
may succeed or fail and are accounted for by `gameRows`), a non-debug run
accumulates exactly the per-game rows of the remaining games in schedule
order, finishes normally (`.ok ()`, no early termination), and still issues
the game fetch for every scheduled game, including the failing one and all
games after it. -/
theorem C3_game_failure_skipped (w : World) (sd ed : String)
    (pre post : List Json) (gbad bid : Json) (err : PyErr)
    (hsched : get_schedule w sd ed =
      .ok (Json.obj [("games", Json.arr (pre ++ gbad :: post))]))
    (hhead : ∀ g ∈ pre ++ gbad :: post, ∃ gid, gameHeader g = .ok gid)
    (hbad1 : gameHeader gbad = .ok bid)
    (hbad2 : process_game w bid false = .error err) :
    (collect_data w sd ed false).1 =
      ((pre ++ post).map (gameRows w)).flatten ∧
    (collect_data w sd ed false).2.2 = Except.ok () ∧
    (∀ g ∈ pre ++ gbad :: post, ∃ gid, gameHeader g = .ok gid ∧
      Action.fetchGame gid ∈ (collect_data w sd ed false).2.1) := by
  rw [collect_data_char w sd ed _ hsched hhead]
  have hz : gameRows w gbad = [] := by simp [gameRows, hbad1, hbad2]
  refine ⟨?_, rfl, ?_⟩
  · simp [List.map_append, hz]
  · intro g hg
    obtain ⟨gid, hgid⟩ := hhead g hg
    refine ⟨gid, hgid, ?_⟩
    have hmem : Action.fetchGame gid ∈ gameTrace w g := by
      simp [gameTrace, hgid]
    exact List.mem_cons_of_mem _
      (List.mem_flatten.mpr ⟨gameTrace w g, List.mem_map_of_mem _ hg, hmem⟩)

/-- C3, witness: in `w3` (three games, game 2 malformed), the run keeps the
rows of games 1 and 3 in order, completes normally, and fetches all three
games. -/
theorem C3_witness :
    (collect_data w3 "2024-01-01" "2024-01-31" false).1 =
      (([gameEntry 1] ++ [gameEntry 3]).map (gameRows w3)).flatten ∧
    (collect_data w3 "2024-01-01" "2024-01-31" false).2.2 = Except.ok () ∧
    (∀ g ∈ [gameEntry 1] ++ gameEntry 2 :: [gameEntry 3],
      ∃ gid, gameHeader g = .ok gid ∧
        Action.fetchGame gid ∈
          (collect_data w3 "2024-01-01" "2024-01-31" false).2.1) :=
  C3_game_failure_skipped w3 "2024-01-01" "2024-01-31"
    [gameEntry 1] [gameEntry 3] (gameEntry 2) (Json.num 2)
    (PyErr.keyError "id")
    (by rfl)
    (by
      intro g hg
      simp only [List.cons_append, List.nil_append, List.mem_cons,
        List.not_mem_nil, or_false] at hg
      rcases hg with rfl | rfl | rfl
      · exact ⟨Json.num 1, rfl⟩
      · exact ⟨Json.num 2, rfl⟩
      · exact ⟨Json.num 3, rfl⟩)
    (by rfl)
    (by rfl)

/-! ### C8 -/

/-- C8, counterexample.  In `w82` game 1's processing raises, so its
`time.sleep(1)` (which sits after the successful-path accumulation inside the
`try`) is skipped: the trace shows the fetch of game 1 immediately followed
by the fetch of game 2 with no sleep in between.  The claim that a sleep is
executed between every two consecutive game fetches is therefore false. -/
theorem C8_counterexample :
    (collect_data w82 "2024-01-01" "2024-01-31" false).2.1 =
      [Action.fetchSchedule, Action.fetchGame (Json.num 1),
       Action.fetchGame (Json.num 2), Action.sleep] ∧
    Action.sleep ∉
      ((collect_data w82 "2024-01-01" "2024-01-31" false).2.1.take 3) :=
  ⟨by rfl, by decide⟩

/-- C8, amended.  In a non-debug run the trace is the schedule fetch followed
by the per-game segments in order, where a game whose processing succeeds
contributes its fetch followed by exactly one sleep, and a game whose
processing raises contributes its fetch with no sleep after it (the sleep on
line 136 is only reached on the success path). -/
theorem C8_sleep_after_success (w : World) (sd ed : String)
    (games : List Json)
    (hsched : get_schedule w sd ed =
      .ok (Json.obj [("games", Json.arr games)]))
    (hhead : ∀ g ∈ games, ∃ gid, gameHeader g = .ok gid) :
    (collect_data w sd ed false).2.1 =
      Action.fetchSchedule :: (games.map (gameTrace w)).flatten ∧
    (∀ g gid, gameHeader g = .ok gid →
      ((∃ rs, process_game w gid false = .ok rs) →
        gameTrace w g = [Action.fetchGame gid, Action.sleep]) ∧
      ((∃ e, process_game w gid false = .error e) →
        gameTrace w g = [Action.fetchGame gid])) := by
  constructor
  · rw [collect_data_char w sd ed games hsched hhead]
  · intro g gid hgid
    constructor
    · rintro ⟨rs, hp⟩
      simp [gameTrace, hgid, hp]
    · rintro ⟨e, hp⟩
      simp [gameTrace, hgid, hp]

/-- C8, witness: the amended theorem applied to `w82`. -/
theorem C8_witness :
    (collect_data w82 "2024-01-01" "2024-01-31" false).2.1 =
      Action.fetchSchedule ::
        (([gameEntry 1, gameEntry 2]).map (gameTrace w82)).flatten ∧
    (∀ g gid, gameHeader g = .ok gid →
      ((∃ rs, process_game w82 gid false = .ok rs) →
        gameTrace w82 g = [Action.fetchGame gid, Action.sleep]) ∧
      ((∃ e, process_game w82 gid false = .error e) →
        gameTrace w82 g = [Action.fetchGame gid])) :=
  C8_sleep_after_success w82 "2024-01-01" "2024-01-31"
    [gameEntry 1, gameEntry 2]
    (by rfl)
    (by
      intro g hg
      simp only [List.mem_cons, List.not_mem_nil, or_false] at hg
      rcases hg with rfl | rfl
      · exact ⟨Json.num 1, rfl⟩
      · exact ⟨Json.num 2, rfl⟩)

/-! ### C9 -/

/-- A play-by-play response for game 1 with two plays. -/
def twoPlayResp : Json := Json.obj
  [("id", Json.num 1),
   ("plays", Json.arr [Json.obj [("eventId", Json.num 201)],
                       Json.obj [("eventId", Json.num 202)]]),
   ("awayTeam", Json.obj [("id", Json.num 10)]),
   ("homeTeam", Json.obj [("id", Json.num 12)])]

/-- Two scheduled games; game 1 has two plays. -/
def w9 : World where
  scheduleResp := .ok (schedOf [gameEntry 1, gameEntry 2])
  gameResp := fun gid =>
    if gid = Json.num 1 then .ok twoPlayResp
    else if gid = Json.num 2 then .ok (goodResp 2)
    else .error (.mk "404")

/-- C9, counterexample.  A debug run over `w9` (first game has two plays)
accumulates two rows, not at most one: the debug flag truncates to the first
game but `process_game` still adapts every play of that game (the `debug`
branch of lines 109-112 only prints the first play). -/
theorem C9_counterexample :
    ((collect_data w9 "2024-01-01" "2024-01-31" true).1).length = 2 := by
  rfl

/-- The base row of a play of `twoPlayResp` with event id `e`. -/
def w9row (e : Int) : Row :=
  [("game_id", Json.num 1), ("event_id", Json.num e),
   ("event_type", Json.null), ("period", Json.null),
   ("period_type", Json.null), ("time_in_period", Json.null),
   ("time_remaining", Json.null), ("coordinates_x", Json.null),
   ("coordinates_y", Json.null), ("zone_code", Json.null),
   ("event_owner_team_id", Json.null), ("away_team_id", Json.num 10),
   ("home_team_id", Json.num 12), ("situation_code", Json.null),
   ("home_team_defending_side", Json.null)]

/-- C9, amended.  When the debug flag is set and the first scheduled game
processes successfully, the run is truncated to that first game only: the
accumulated output is all of the first game's event rows (not just its first
event), exactly one game fetch is issued, and no later game is touched. -/
theorem C9_debug_truncates (w : World) (sd ed : String) (g : Json)
    (rest : List Json) (gid : Json) (rs : List Row)
    (hsched : get_schedule w sd ed =
      .ok (Json.obj [("games", Json.arr (g :: rest))]))
    (hhead : gameHeader g = .ok gid)
    (hok : process_game w gid true = .ok rs) :
    collect_data w sd ed true =
      (rs, [Action.fetchSchedule, Action.fetchGame gid], Except.ok ()) := by
  have h1 : collect_data w sd ed true =
      ((collect_loop w true (g :: rest)).1,
       Action.fetchSchedule :: (collect_loop w true (g :: rest)).2.1,
       (collect_loop w true (g :: rest)).2.2) := by
    unfold collect_data
    rw [hsched]
    rfl
  rw [h1]
  simp [collect_loop, hhead, hok]

/-- C9, witness: the amended theorem applied to `w9`: the debug run returns
both rows of game 1 and never fetches game 2. -/
theorem C9_witness :
    collect_data w9 "2024-01-01" "2024-01-31" true =
      ([w9row 201, w9row 202],
       [Action.fetchSchedule, Action.fetchGame (Json.num 1)],
       Except.ok ()) :=
  C9_debug_truncates w9 "2024-01-01" "2024-01-31" (gameEntry 1)
    [gameEntry 2] (Json.num 1) [w9row 201, w9row 202]
    (by rfl) (by rfl) (by rfl)

/-! ### C6 -/

/-- When the fetched game record has no `id` key, the very first lookup of
`extract_play_data` (line 54, `game_data['id']`) raises `KeyError('id')`. -/
theorem extract_err_no_id (p g : Json) (e : PyErr)
    (hid : dictIdx g "id" = .error e) :
    extract_play_data p g = .error e := by
  unfold extract_play_data
  simp [hid, Bind.bind, Except.bind]

/-- Processing a game whose payload is a dict without an `id` key never
produces a row: either there is no play to adapt (`.ok []`) or the first
adaptation (or an earlier step) raises and the per-game handler will drop
the whole game. -/
theorem process_game_no_id (w : World) (gid : Json)
    (kvs : List (String × Json)) (debug : Bool)
    (h1 : w.gameResp gid = .ok (Json.obj kvs))
    (h2 : kvs.lookup "id" = none) :
    process_game w gid debug = .ok [] ∨
      ∃ e, process_game w gid debug = .error e := by
  have hid : dictIdx (Json.obj kvs) "id" = .error (PyErr.keyError "id") := by
    simp [dictIdx, h2]
  have hpl : dictGet (Json.obj kvs) "plays" (Json.arr []) =
      .ok ((kvs.lookup "plays").getD (Json.arr [])) := by simp [dictGet]
  cases hlen : pyLen ((kvs.lookup "plays").getD (Json.arr [])) with
  | error e =>
    right
    exact ⟨e, by
      simp [process_game, get_game_data, h1, hpl, hlen, Bind.bind, Except.bind]⟩
  | ok n =>
    have hgd : get_game_data w gid = .ok (Json.obj kvs) := by
      simp [get_game_data, h1, hpl, hlen, Bind.bind, Except.bind, pure, Except.pure]
    cases hdp : debugPeek debug ((kvs.lookup "plays").getD (Json.arr [])) with
    | error e =>
      right
      exact ⟨e, by
        simp [process_game, hgd, hpl, hdp, Bind.bind, Except.bind]⟩
    | ok u =>
      cases hit : pyIter ((kvs.lookup "plays").getD (Json.arr [])) with
      | error e =>
        right
        exact ⟨e, by
          simp [process_game, hgd, hpl, hdp, hit, Bind.bind, Except.bind]⟩
      | ok playList =>
        cases playList with
        | nil =>
          left
          simp [process_game, hgd, hpl, hdp, hit, Bind.bind, Except.bind,
            List.foldlM, pure, Except.pure]
        | cons p ps =>
          right
          exact ⟨PyErr.keyError "id", by
            simp [process_game, hgd, hpl, hdp, hit, Bind.bind, Except.bind,
              List.foldlM, extract_err_no_id p (Json.obj kvs)
                (PyErr.keyError "id") hid]⟩

/-- A game payload whose `id` is JSON null (the key is present but bound to
null), with one play. -/
def nullIdResp : Json := Json.obj
  [("id", Json.null),
   ("plays", Json.arr [Json.obj []]),
   ("awayTeam", Json.obj [("id", Json.num 10)]),
   ("homeTeam", Json.obj [("id", Json.num 12)])]

/-- One scheduled game whose payload carries `id: null`. -/
def w6 : World where
  scheduleResp := .ok (schedOf [gameEntry 1])
  gameResp := fun gid =>
    if gid = Json.num 1 then .ok nullIdResp else .error (.mk "404")

/-- C6, counterexample.  When the upstream game payload carries `id: null`,
`game_data['id']` succeeds with null, so the run accumulates a row whose
`game_id` field is null: a run of `collect_data` over `w6` emits exactly one
row and its `game_id` is `Json.null`.  The invariant that every accumulated
row carries a non-null `game_id` is therefore false; only a *missing* `id`
key is dropped. -/
theorem C6_counterexample :
    ((collect_data w6 "2024-01-01" "2024-01-31" false).1.map
      (fun r => r.lookup "game_id")) = [some Json.null] := by
  rfl

/-- The base row produced for the event `{}` inside `sampleGame`. -/
def sampleBaseRow : Row :=
  [("game_id", Json.num 2024020001), ("event_id", Json.null),
   ("event_type", Json.null), ("period", Json.null),
   ("period_type", Json.null), ("time_in_period", Json.null),
   ("time_remaining", Json.null), ("coordinates_x", Json.null),
   ("coordinates_y", Json.null), ("zone_code", Json.null),
   ("event_owner_team_id", Json.null), ("away_team_id", Json.num 10),
   ("home_team_id", Json.num 12), ("situation_code", Json.null),
   ("home_team_defending_side", Json.null)]

/-- C6, amended.  Every row produced by the adapter carries in `game_id`
exactly the value bound to `id` in the parent game record, whose presence is
mandatory (the lookup is `game_data['id']`, not a defaulted `get`); and a
fetched game payload lacking the `id` key contributes no row (its processing
returns no rows or raises, and a raise makes the per-game handler skip the
game).  `game_id` is hence non-null unless upstream explicitly binds `id` to
null. -/
theorem C6_game_id_provenance :
    (∀ p g r, extract_play_data p g = .ok r →
      ∃ v, dictIdx g "id" = .ok v ∧ r.lookup "game_id" = some v) ∧
    (∀ w gid kvs debug, w.gameResp gid = .ok (Json.obj kvs) →
      List.lookup "id" kvs = none →
      process_game w gid debug = .ok [] ∨
        ∃ e, process_game w gid debug = .error e) := by
  constructor
  · intro p g r h
    obtain ⟨et, gid, _, hgid, _, hlk, _⟩ := extract_play_data_shape p g r h
    exact ⟨gid, hgid, hlk⟩
  · intro w gid kvs debug h1 h2
    exact process_game_no_id w gid kvs debug h1 h2

/-- C6, witness: the provenance theorem applied to the event `{}` inside
`sampleGame` (its row's `game_id` is the record's id 2024020001), and to
game 1 of `w82`, whose payload has a play but no `id` key. -/
theorem C6_witness :
    (∃ v, dictIdx sampleGame "id" = .ok v ∧
      sampleBaseRow.lookup "game_id" = some v) ∧
    (process_game w82 (Json.num 1) false = .ok [] ∨
      ∃ e, process_game w82 (Json.num 1) false = .error e) :=
  ⟨C6_game_id_provenance.1 (Json.obj []) sampleGame sampleBaseRow (by rfl),
   C6_game_id_provenance.2 w82 (Json.num 1)
     [("plays", Json.arr [Json.obj []])] false (by rfl) (by rfl)⟩

/-! ### C7 -/

theorem printGames_ok (gs : List Json)
    (h : ∀ g ∈ gs, ∃ gid, gameHeader g = .ok gid) :
    printGames gs = .ok () := by
  induction gs with
  | nil => rfl
  | cons g rest ih =>
    obtain ⟨gid, hgid⟩ := h g (List.mem_cons_self g rest)
    have hr := ih (fun x hx => h x (List.mem_cons_of_mem g hx))
    simp [printGames, hgid, hr, Bind.bind, Except.bind]

/-- When no week's `date` equals the requested date, the scan returns no
games. -/
theorem scheduleWeeks_no_match (weeks : List Json) (sd : String)
    (h : ∀ wk ∈ weeks, ∃ d, dictGetN wk "date" = .ok d ∧ d ≠ Json.str sd) :
    scheduleWeeks weeks sd = .ok [] := by
  induction weeks with
  | nil => rfl
  | cons wk rest ih =>
    obtain ⟨d, hd, hne⟩ := h wk (List.mem_cons_self wk rest)
    have hr := ih (fun x hx => h x (List.mem_cons_of_mem wk hx))
    simp [scheduleWeeks, hd, hne, hr, Bind.bind, Except.bind]

/-- The scan returns the games of the first week whose `date` matches,
skipping any earlier weeks with a different date. -/
theorem scheduleWeeks_first_match (pre : List Json) (wkm : Json)
    (post : List Json) (sd : String) (gs : List Json)
    (hpre : ∀ wk ∈ pre, ∃ d, dictGetN wk "date" = .ok d ∧ d ≠ Json.str sd)
    (hdate : dictGetN wkm "date" = .ok (Json.str sd))
    (hgames : dictGet wkm "games" (Json.arr []) = .ok (Json.arr gs))
    (hgs : ∀ g ∈ gs, ∃ gid, gameHeader g = .ok gid) :
    scheduleWeeks (pre ++ wkm :: post) sd = .ok gs := by
  induction pre with
  | nil =>
    have hforM := printGames_ok gs hgs
    simp [scheduleWeeks, hdate, hgames, hforM, pyIter, Bind.bind,
      Except.bind, pure, Except.pure]
  | cons wk rest ih =>
    obtain ⟨d, hd, hne⟩ := hpre wk (List.mem_cons_self wk rest)
    have hr := ih (fun x hx => hpre x (List.mem_cons_of_mem wk hx))
    simp [scheduleWeeks, hd, hne, hr, Bind.bind, Except.bind]

/-- C7.  For a week-granular schedule response: if no week's `date` equals
the requested start date, `get_schedule` returns no games; and the games
returned are exactly those of the (first) week whose `date` equals the
requested date, even when weeks with other dates precede it — never the
first week's games when its date differs. -/
theorem C7_week_selection (w : World) (sd ed : String)
    (kvs : List (String × Json)) (weeks : List Json)
    (hresp : w.scheduleResp = .ok (Json.obj kvs))
    (hwk : kvs.lookup "gameWeek" = some (Json.arr weeks)) :
    ((∀ wk ∈ weeks, ∃ d, dictGetN wk "date" = .ok d ∧ d ≠ Json.str sd) →
      get_schedule w sd ed = .ok (Json.obj [("games", Json.arr [])])) ∧
    (∀ pre wkm post gs, weeks = pre ++ wkm :: post →
      (∀ wk ∈ pre, ∃ d, dictGetN wk "date" = .ok d ∧ d ≠ Json.str sd) →
      dictGetN wkm "date" = .ok (Json.str sd) →
      dictGet wkm "games" (Json.arr []) = .ok (Json.arr gs) →
      (∀ g ∈ gs, ∃ gid, gameHeader g = .ok gid) →
      get_schedule w sd ed = .ok (Json.obj [("games", Json.arr gs)])) := by
  have hbase : ∀ res, scheduleWeeks weeks sd = .ok res →
      get_schedule w sd ed = .ok (Json.obj [("games", Json.arr res)]) := by
    intro res hres
    unfold get_schedule
    rw [hresp]
    simp [dictGet, hwk, pyIter, hres, Bind.bind, Except.bind, pure, Except.pure]
  constructor
  · intro h
    exact hbase [] (scheduleWeeks_no_match weeks sd h)
  · intro pre wkm post gs heq hpre hdate hgames hgs
    subst heq
    exact hbase gs (scheduleWeeks_first_match pre wkm post sd gs hpre hdate hgames hgs)

/-- A week for 2024-01-01 with game 7. -/
def wk1 : Json := Json.obj
  [("date", Json.str "2024-01-01"), ("games", Json.arr [gameEntry 7])]

/-- A week for 2024-01-02 with game 8. -/
def wk2 : Json := Json.obj
  [("date", Json.str "2024-01-02"), ("games", Json.arr [gameEntry 8])]

/-- A schedule response with two weeks; only the second matches the
requested date. -/
def w7 : World where
  scheduleResp := .ok (Json.obj [("gameWeek", Json.arr [wk1, wk2])])
  gameResp := fun _ => .error (.mk "404")

/-- C7, witness: requesting 2024-01-02 against `w7` returns game 8 from the
second week, not game 7 from the first. -/
theorem C7_witness :
    get_schedule w7 "2024-01-02" "2024-01-31" =
      .ok (Json.obj [("games", Json.arr [gameEntry 8])]) :=
  (C7_week_selection w7 "2024-01-02" "2024-01-31"
      [("gameWeek", Json.arr [wk1, wk2])] [wk1, wk2] rfl (by rfl)).2
    [wk1] wk2 [] [gameEntry 8] rfl
    (by
      intro wk hwk
      simp only [List.mem_singleton] at hwk
      subst hwk
      exact ⟨Json.str "2024-01-01", rfl, by decide⟩)
    (by rfl) (by rfl)
    (by
      intro g hg
      simp only [List.mem_singleton] at hg
      subst hg
      exact ⟨Json.num 8, rfl⟩)

end ShotDataPipeline
